import Mathlib

/-!
Verification of `scripts/install.py` (GitLab MCP Server installer).

The development shallowly embeds the JSON configuration merge engine of the
installer: the JSON value type, the Python-dict operations the script uses,
the adapter mutation closures (`update` inside `update_vscode_workspace`,
`update_vscode_user`, `update_claude_config`), the safe file mutator
`update_json_file`, the VS Code fallback orchestration `update_vscode`,
the entry builder (`get_binary_config`, `create_server_config`, and the
read-only block of `main`), and the per-server loop of `main`.

File-system effects are modelled by explicit state passing (`FSState`), and
I/O failures by explicit fault-injection flags (`Faults`).  `json.load` and
`json.dump` are abstract parameters (`parse`, `dumps`): every theorem holds
for all choices of those functions, given hypotheses about their values on
the concrete contents involved.
-/

/-- JSON values, mirroring the Python `json` module's data model
(`dict` with string keys / `list` / `str` / `int`-`float` collapsed to `Int`
here since no claim involves numeric contents / `bool` / `None`).
Objects are association lists in insertion order, as Python dicts are. -/
inductive Json where
  | str : String → Json
  | num : Int → Json
  | bool : Bool → Json
  | null : Json
  | arr : List Json → Json
  | obj : List (String × Json) → Json
deriving Repr

/-- Python `k in d` / `d[k]` for a dict: lookup of the first (and only)
binding of `k`. -/
def getKey {α : Type} : List (String × α) → String → Option α
  | [], _ => none
  | (k', v) :: rest, k => if k' = k then some v else getKey rest k

/-- Python `d[k] = v` on a dict: overwrite in place if `k` is present,
append at the end otherwise (insertion-order semantics of Python dicts). -/
def setKey {α : Type} : List (String × α) → String → α → List (String × α)
  | [], k, v => [(k, v)]
  | (k', v') :: rest, k, v =>
      if k' = k then (k, v) :: rest else (k', v') :: setKey rest k v

/-- Whether a JSON value is an object (a Python dict after `json.load`). -/
def Json.isObj : Json → Bool
  | Json.obj _ => true
  | _ => false

/-- The mutation closure `update` of `update_vscode_workspace`:
`if "servers" not in data: data["servers"] = {}` then
`data["servers"][server_name] = server_config`.
`none` models the Python call raising (a `TypeError`): that happens exactly
when `data` is not a dict, or `data["servers"]` exists but is not a dict. -/
def workspaceUpdate (server_name : String) (server_config : Json) : Json → Option Json
  | Json.obj kvs =>
      let kvs1 := match getKey kvs "servers" with
        | none => setKey kvs "servers" (Json.obj [])
        | some _ => kvs
      match getKey kvs1 "servers" with
      | some (Json.obj skvs) =>
          some (Json.obj (setKey kvs1 "servers"
            (Json.obj (setKey skvs server_name server_config))))
      | _ => none
  | _ => none

/-- The mutation closure `update` of `update_vscode_user`:
creates `data["mcp"]` and `data["mcp"]["servers"]` when missing, then sets
`data["mcp"]["servers"][server_name] = server_config`.  `none` models a
raise: `data` not a dict, or an existing `data["mcp"]` /
`data["mcp"]["servers"]` that is not a dict. -/
def userUpdate (server_name : String) (server_config : Json) : Json → Option Json
  | Json.obj kvs =>
      let kvs1 := match getKey kvs "mcp" with
        | none => setKey kvs "mcp" (Json.obj [])
        | some _ => kvs
      match getKey kvs1 "mcp" with
      | some (Json.obj mkvs) =>
          let mkvs1 := match getKey mkvs "servers" with
            | none => setKey mkvs "servers" (Json.obj [])
            | some _ => mkvs
          match getKey mkvs1 "servers" with
          | some (Json.obj skvs) =>
              some (Json.obj (setKey kvs1 "mcp"
                (Json.obj (setKey mkvs1 "servers"
                  (Json.obj (setKey skvs server_name server_config))))))
          | _ => none
      | _ => none
  | _ => none

/-- The mutation closure `update` of `update_claude_config`:
creates `data["mcpServers"]` when missing, copies the entry
(`config = dict(server_config)`), adds `type = "stdio"` when
`is_claude_code`, then sets `data["mcpServers"][server_name] = config`.
`none` models a raise: `data` not a dict, `data["mcpServers"]` present but
not a dict, or `server_config` not a dict (then `dict(server_config)`
raises). -/
def claudeUpdate (is_claude_code : Bool) (server_name : String)
    (server_config : Json) : Json → Option Json
  | Json.obj kvs =>
      match server_config with
      | Json.obj ekvs =>
          let kvs1 := match getKey kvs "mcpServers" with
            | none => setKey kvs "mcpServers" (Json.obj [])
            | some _ => kvs
          let config := if is_claude_code
            then Json.obj (setKey ekvs "type" (Json.str "stdio"))
            else Json.obj ekvs
          match getKey kvs1 "mcpServers" with
          | some (Json.obj skvs) =>
              some (Json.obj (setKey kvs1 "mcpServers"
                (Json.obj (setKey skvs server_name config))))
          | _ => none
      | _ => none
  | _ => none

/-- The four target shapes of the installer (spec names): workspace
`.vscode/mcp.json`, VS Code user `settings.json`, Claude Code config, and
Claude Desktop / Cursor config. -/
inductive AdapterKind where
  | workspaceNested
  | userNested
  | flatWithTypeTag
  | flatPlain
deriving Repr, DecidableEq

/-- Dispatch from adapter kind to the source mutation closure. -/
def adapterUpdate : AdapterKind → String → Json → Json → Option Json
  | AdapterKind.workspaceNested => workspaceUpdate
  | AdapterKind.userNested => userUpdate
  | AdapterKind.flatWithTypeTag => claudeUpdate true
  | AdapterKind.flatPlain => claudeUpdate false

/-- Top-level container key owned by each adapter. -/
def containerKey : AdapterKind → String
  | AdapterKind.workspaceNested => "servers"
  | AdapterKind.userNested => "mcp"
  | AdapterKind.flatWithTypeTag => "mcpServers"
  | AdapterKind.flatPlain => "mcpServers"

/-- Top-level lookup in a document (only objects have keys). -/
def topGet : Json → String → Option Json
  | Json.obj kvs, k => getKey kvs k
  | _, _ => none

/-- State of one target file: raw bytes of the file itself (`none` when it
does not exist) and of its `.bak` sibling. -/
structure FSState where
  file : Option String
  backup : Option String
deriving Repr, DecidableEq

/-- Fault injection for one `update_json_file` call: whether the backup
copy fails (tolerated with a warning in the source), whether the final
write fails, what truncated bytes a failed write leaves behind before any
restore, and whether the restore write itself fails (silently swallowed in
the source). -/
structure Faults where
  backupFails : Bool
  writeFails : Bool
  junkContent : String
  restoreFails : Bool
deriving Repr, DecidableEq

/-- Outcome of one `update_json_file` call.  `result = some b` models the
function returning `b`; `result = none` models an exception propagating out
of the call (the source only catches `json.JSONDecodeError` on read and
write errors on persist, not errors raised by `update_func`). -/
structure UpdateResult where
  result : Option Bool
  fs : FSState
  parseWarning : Bool
  backupWarning : Bool
deriving Repr, DecidableEq

/-- The safe file mutator `update_json_file(path, update_func, description)`.

Read: a missing file or a `json.JSONDecodeError` (modelled by
`parse s = none`, with a warning) yields the empty document `{}`.
Backup: when the file exists its bytes are copied to the `.bak` sibling;
a failing copy is tolerated with a warning and leaves any stale backup.
Mutate: `update_func` runs on the in-memory document; a raise propagates
(the file is never written).  Persist: on success the file holds
`json.dump(data, indent=2)` plus a newline (modelled by `dumps`) and `True`
is returned; on failure the write leaves `junkContent` behind, the `.bak`
sibling is copied back over the file when it exists, and `False` is
returned.  (`description` only feeds log messages and is omitted;
`mkdir(parents=True)` has no bearing on any claim and is omitted.) -/
def update_json_file (parse : String → Option Json) (dumps : Json → String)
    (faults : Faults) (st : FSState) (update_func : Json → Option Json) :
    UpdateResult :=
  let read : Json × Bool :=
    match st.file with
    | none => (Json.obj [], false)
    | some s =>
        match parse s with
        | some j => (j, false)
        | none => (Json.obj [], true)
  let backed : Option String × Bool :=
    match st.file with
    | none => (st.backup, false)
    | some s => if faults.backupFails then (st.backup, true) else (some s, false)
  match update_func read.1 with
  | none =>
      { result := none, fs := { file := st.file, backup := backed.1 },
        parseWarning := read.2, backupWarning := backed.2 }
  | some data =>
      if faults.writeFails then
        let fileAfter : Option String :=
          match backed.1 with
          | some b => if faults.restoreFails then some faults.junkContent else some b
          | none => some faults.junkContent
        { result := some false, fs := { file := fileAfter, backup := backed.1 },
          parseWarning := read.2, backupWarning := backed.2 }
      else
        { result := some true, fs := { file := some (dumps data), backup := backed.1 },
          parseWarning := read.2, backupWarning := backed.2 }

/-- Wrapper `update_vscode_workspace(path, server_name, server_config)`:
`update_json_file` with the workspace mutation closure. -/
def update_vscode_workspace (parse : String → Option Json) (dumps : Json → String)
    (faults : Faults) (st : FSState) (server_name : String)
    (server_config : Json) : UpdateResult :=
  update_json_file parse dumps faults st (workspaceUpdate server_name server_config)

/-- Wrapper `update_vscode_user(path, server_name, server_config)`. -/
def update_vscode_user (parse : String → Option Json) (dumps : Json → String)
    (faults : Faults) (st : FSState) (server_name : String)
    (server_config : Json) : UpdateResult :=
  update_json_file parse dumps faults st (userUpdate server_name server_config)

/-- Wrapper `update_claude_config(path, server_name, server_config,
is_claude_code)`. -/
def update_claude_config (parse : String → Option Json) (dumps : Json → String)
    (faults : Faults) (st : FSState) (server_name : String)
    (server_config : Json) (is_claude_code : Bool) : UpdateResult :=
  update_json_file parse dumps faults st
    (claudeUpdate is_claude_code server_name server_config)

/-- State of the two VS Code target files: the workspace `.vscode/mcp.json`
and the per-user `settings.json`. -/
structure VSCodeState where
  ws : FSState
  user : FSState
deriving Repr, DecidableEq

/-- `update_vscode(paths, server_name, server_config)`: try the workspace
file first; when that attempt returns `False` or raises (the raise is
swallowed by `except Exception: pass`), fall back to the user settings file
and return that attempt's result (whose own raise propagates, `none`).
Both paths are always non-`None` in `get_platform_paths`, so both `if`
guards of the source are true. -/
def update_vscode (parse : String → Option Json) (dumps : Json → String)
    (wsFaults userFaults : Faults) (st : VSCodeState) (server_name : String)
    (server_config : Json) : Option Bool × VSCodeState :=
  let wsOut := update_vscode_workspace parse dumps wsFaults st.ws server_name server_config
  match wsOut.result with
  | some true => (some true, { ws := wsOut.fs, user := st.user })
  | _ =>
      let uOut := update_vscode_user parse dumps userFaults st.user server_name server_config
      (uOut.result, { ws := wsOut.fs, user := uOut.fs })

/-- `update_environment` for the Claude Desktop / Claude Code / Cursor
environments: calls `update_claude_config` inside `try/except Exception`,
reporting `success` (a raise leaves `success = False`). -/
def update_environment_claude (parse : String → Option Json) (dumps : Json → String)
    (faults : Faults) (st : FSState) (server_name : String)
    (server_config : Json) (is_claude_code : Bool) : Bool × FSState :=
  let out := update_claude_config parse dumps faults st server_name server_config is_claude_code
  (match out.result with
   | some b => b
   | none => false, out.fs)

/-- Invocation mode of a server record (`config["mode"]`). -/
inductive Mode where
  | loc
  | docker
deriving Repr, DecidableEq

/-- The dict built by `get_binary_config` (and mutated by the read-only
block of `main`): mode, command, argument list, environment dict, and the
`docker_image` key set only in docker mode. -/
structure BinaryConfig where
  mode : Mode
  command : String
  args : List String
  env : List (String × String)
  docker_image : Option String
deriving Repr, DecidableEq

/-- One collected server record (`config` from `prompt_user` /
`collect_servers`): name, mode, host, token, read-only flag.  The prompts
guarantee `gitlab_host` and `token` are non-empty, but the definitions
below do not rely on that. -/
structure ServerData where
  name : String
  mode : Mode
  gitlab_host : String
  token : String
  readonly : Bool
deriving Repr, DecidableEq

/-- `get_binary_config(mode, project_root)`.  `binaryExists` models
`Path(project_root)/"bin"/"gitlab-mcp-server" .exists()`; `none` models
`sys.exit(1)` when the local binary is missing.  `.resolve()` is modelled
as the identity on the already-absolute joined path. -/
def get_binary_config (mode : Mode) (project_root : String)
    (binaryExists : Bool) : Option BinaryConfig :=
  match mode with
  | Mode.docker =>
      some { mode := Mode.docker, command := "docker",
             args := ["run", "-i", "--rm", "-e", "GITLAB_TOKEN", "-e",
                      "GITLAB_HOST", "gitlab-mcp-server:latest"],
             env := [], docker_image := some "gitlab-mcp-server:latest" }
  | Mode.loc =>
      if binaryExists then
        some { mode := Mode.loc,
               command := project_root ++ "/bin/gitlab-mcp-server",
               args := ["stdio"], env := [], docker_image := none }
      else none

/-- Python `list.insert(-1, x)`: insert before the last element (at
position 0 when the list is empty). -/
def insertBeforeLast {α : Type} : List α → α → List α
  | [], x => [x]
  | [a], x => [x, a]
  | a :: b :: rest, x => a :: insertBeforeLast (b :: rest) x

/-- The read-only block of `main`: when the record has `readonly`, docker
mode gets `-e GITLAB_READ_ONLY` inserted before the image name (the last
argument), and `GITLAB_READ_ONLY=true` is put in the binary config's env
in either mode. -/
def apply_readonly_flag (bc : BinaryConfig) (readonly : Bool) : BinaryConfig :=
  if readonly then
    let args := if bc.mode = Mode.docker
      then insertBeforeLast (insertBeforeLast bc.args "-e") "GITLAB_READ_ONLY"
      else bc.args
    { bc with args := args, env := setKey bc.env "GITLAB_READ_ONLY" "true" }
  else bc

/-- The MCP server entry dict built by `create_server_config`. -/
structure ServerConfigEntry where
  command : String
  args : List String
  env : List (String × String)
deriving Repr, DecidableEq

/-- `create_server_config(binary_config, server_config_data)`: start from
the binary config's command/args, copy its env, always set `GITLAB_TOKEN`,
set `GITLAB_HOST` whenever `server_config_data.get("gitlab_host")` is
truthy (a non-empty string), and set `GITLAB_READ_ONLY=true` when the
record has `readonly`. -/
def create_server_config (bc : BinaryConfig) (d : ServerData) : ServerConfigEntry :=
  let env1 := setKey bc.env "GITLAB_TOKEN" d.token
  let env2 := if d.gitlab_host ≠ "" then setKey env1 "GITLAB_HOST" d.gitlab_host else env1
  let env3 := if d.readonly then setKey env2 "GITLAB_READ_ONLY" "true" else env2
  { command := bc.command, args := bc.args, env := env3 }

/-- Observable events of the per-server loop of `main`: one
`update_environment` call per selected environment (each may mutate a
configuration file), or `sys.exit(1)` out of `get_binary_config`. -/
inductive StepEvent where
  | mutation : String → String → StepEvent
  | exit1 : StepEvent
deriving Repr, DecidableEq

/-- The per-server loop of `main` as an event trace: for each collected
server, `get_binary_config` runs first; a missing local binary exits the
whole run; otherwise one `update_environment` call happens per selected
environment before the next server is processed. -/
def run_servers (binaryExists : Bool) (project_root : String)
    (servers : List ServerData) (environments : List String) : List StepEvent :=
  match servers with
  | [] => []
  | s :: rest =>
      match get_binary_config s.mode project_root binaryExists with
      | none => [StepEvent.exit1]
      | some _ =>
          environments.map (fun e => StepEvent.mutation s.name e) ++
            run_servers binaryExists project_root rest environments

/-- Innermost container dict owned by an adapter inside a document, when
present: `data["servers"]`, `data["mcp"]["servers"]`, or
`data["mcpServers"]`. -/
def getContainer : AdapterKind → Json → Option (List (String × Json))
  | AdapterKind.workspaceNested, Json.obj kvs =>
      match getKey kvs "servers" with
      | some (Json.obj c) => some c
      | _ => none
  | AdapterKind.userNested, Json.obj kvs =>
      match getKey kvs "mcp" with
      | some (Json.obj m) =>
          match getKey m "servers" with
          | some (Json.obj c) => some c
          | _ => none
      | _ => none
  | AdapterKind.flatWithTypeTag, Json.obj kvs =>
      match getKey kvs "mcpServers" with
      | some (Json.obj c) => some c
      | _ => none
  | AdapterKind.flatPlain, Json.obj kvs =>
      match getKey kvs "mcpServers" with
      | some (Json.obj c) => some c
      | _ => none
  | _, _ => none

/-- The value an adapter actually stores under the entry name: the entry
itself for the nested shapes, a copy (with `type = "stdio"` added for
Claude Code) for the flat shapes; `none` when the flat shapes would raise
on a non-dict entry. -/
def placedEntry : AdapterKind → Json → Option Json
  | AdapterKind.workspaceNested, e => some e
  | AdapterKind.userNested, e => some e
  | AdapterKind.flatWithTypeTag, Json.obj ekvs =>
      some (Json.obj (setKey ekvs "type" (Json.str "stdio")))
  | AdapterKind.flatWithTypeTag, _ => none
  | AdapterKind.flatPlain, Json.obj ekvs => some (Json.obj ekvs)
  | AdapterKind.flatPlain, _ => none

theorem getKey_setKey_same {α : Type} (l : List (String × α)) (k : String) (v : α) :
    getKey (setKey l k v) k = some v := by
  induction l with
  | nil => simp [getKey, setKey]
  | cons hd tl ih =>
      obtain ⟨k', v'⟩ := hd
      by_cases h : k' = k
      · simp [getKey, setKey, h]
      · simp [getKey, setKey, h, ih]

theorem getKey_setKey_ne {α : Type} (l : List (String × α)) (k k' : String)
    (v : α) (h : k' ≠ k) : getKey (setKey l k' v) k = getKey l k := by
  induction l with
  | nil => simp [getKey, setKey, h]
  | cons hd tl ih =>
      obtain ⟨k₀, v₀⟩ := hd
      by_cases h0 : k₀ = k'
      · simp [getKey, setKey, h0, h]
      · simp only [setKey, h0, if_false, getKey]
        by_cases h1 : k₀ = k
        · simp [h1]
        · simp [h1, ih]

theorem setKey_setKey_same {α : Type} (l : List (String × α)) (k : String)
    (v w : α) : setKey (setKey l k v) k w = setKey l k w := by
  induction l with
  | nil => simp [setKey]
  | cons hd tl ih =>
      obtain ⟨k₀, v₀⟩ := hd
      by_cases h : k₀ = k
      · simp [setKey, h]
      · simp [setKey, h, ih]

/-- C2: starting from the empty document `{}` with entry name `"gitlab"`
and entry object `e`, the workspace adapter produces
`{"servers":{"gitlab":e}}`, the user adapter produces
`{"mcp":{"servers":{"gitlab":e}}}`, the Claude Code adapter produces
`{"mcpServers":{"gitlab":e' }}` with `e'` equal to `e` plus
`type = "stdio"`, and the Claude Desktop / Cursor adapter produces
`{"mcpServers":{"gitlab":e}}`. -/
theorem c2_adapter_shape_exactness (ekvs : List (String × Json)) :
    workspaceUpdate "gitlab" (Json.obj ekvs) (Json.obj []) =
      some (Json.obj [("servers", Json.obj [("gitlab", Json.obj ekvs)])]) ∧
    userUpdate "gitlab" (Json.obj ekvs) (Json.obj []) =
      some (Json.obj [("mcp",
        Json.obj [("servers", Json.obj [("gitlab", Json.obj ekvs)])])]) ∧
    claudeUpdate true "gitlab" (Json.obj ekvs) (Json.obj []) =
      some (Json.obj [("mcpServers",
        Json.obj [("gitlab", Json.obj (setKey ekvs "type" (Json.str "stdio")))])]) ∧
    claudeUpdate false "gitlab" (Json.obj ekvs) (Json.obj []) =
      some (Json.obj [("mcpServers", Json.obj [("gitlab", Json.obj ekvs)])]) :=
  ⟨rfl, rfl, rfl, rfl⟩

/-- C4: when the target file exists but fails to parse, `update_json_file`
emits the parse warning, proceeds from the empty document, completes
successfully (no exception), and writes exactly the adapter's container
scaffolding plus the new entry — stated for all four adapter closures. -/
theorem c4_corrupt_file_tolerance (parse : String → Option Json)
    (dumps : Json → String) (faults : Faults) (st : FSState) (server_name : String)
    (ekvs : List (String × Json)) (s : String)
    (hfile : st.file = some s) (hparse : parse s = none)
    (hw : faults.writeFails = false) (hb : faults.backupFails = false) :
    update_json_file parse dumps faults st
        (workspaceUpdate server_name (Json.obj ekvs)) =
      { result := some true,
        fs := { file := some (dumps (Json.obj [("servers",
                  Json.obj [(server_name, Json.obj ekvs)])])), backup := some s },
        parseWarning := true, backupWarning := false } ∧
    update_json_file parse dumps faults st
        (userUpdate server_name (Json.obj ekvs)) =
      { result := some true,
        fs := { file := some (dumps (Json.obj [("mcp", Json.obj [("servers",
                  Json.obj [(server_name, Json.obj ekvs)])])])), backup := some s },
        parseWarning := true, backupWarning := false } ∧
    update_json_file parse dumps faults st
        (claudeUpdate true server_name (Json.obj ekvs)) =
      { result := some true,
        fs := { file := some (dumps (Json.obj [("mcpServers",
                  Json.obj [(server_name,
                    Json.obj (setKey ekvs "type" (Json.str "stdio")))])])),
                backup := some s },
        parseWarning := true, backupWarning := false } ∧
    update_json_file parse dumps faults st
        (claudeUpdate false server_name (Json.obj ekvs)) =
      { result := some true,
        fs := { file := some (dumps (Json.obj [("mcpServers",
                  Json.obj [(server_name, Json.obj ekvs)])])), backup := some s },
        parseWarning := true, backupWarning := false } := by
  refine ⟨?_, ?_, ?_, ?_⟩ <;>
    simp [update_json_file, hfile, hparse, hw, hb, workspaceUpdate, userUpdate,
      claudeUpdate, getKey, setKey]

/-- Witness for C4 at a concrete corrupt file. -/
theorem c4_corrupt_file_tolerance_witness :
    update_json_file (fun _ => none) (fun _ => "D")
        { backupFails := false, writeFails := false, junkContent := "",
          restoreFails := false }
        { file := some "not json", backup := none }
        (workspaceUpdate "gitlab" (Json.obj [])) =
      { result := some true,
        fs := { file := some "D", backup := some "not json" },
        parseWarning := true, backupWarning := false } :=
  (c4_corrupt_file_tolerance (fun _ => none) (fun _ => "D")
    { backupFails := false, writeFails := false, junkContent := "",
      restoreFails := false }
    { file := some "not json", backup := none } "gitlab" [] "not json"
    rfl rfl rfl rfl).1

/-- C3: when the target file exists with valid JSON, the backup snapshot
succeeds, and either the caller-supplied mutation raises or the final write
fails (with the restore copy itself succeeding), the file's bytes after the
`update_json_file` call equal its bytes before — on a mutate raise because
the file is never written, on a write failure by restoration from the
`.bak` backup — and the call does not report success. -/
theorem c3_backup_round_trip (parse : String → Option Json)
    (dumps : Json → String) (faults : Faults) (st : FSState) (s : String)
    (j : Json) (u : Json → Option Json)
    (hfile : st.file = some s) (hparse : parse s = some j)
    (hb : faults.backupFails = false) (hr : faults.restoreFails = false)
    (hcase : u j = none ∨ faults.writeFails = true) :
    (update_json_file parse dumps faults st u).fs.file = some s ∧
    (update_json_file parse dumps faults st u).result ≠ some true := by
  cases hu : u j with
  | none =>
      constructor
      · simp [update_json_file, hfile, hparse, hb, hu]
      · simp [update_json_file, hfile, hparse, hb, hu]
  | some d =>
      have hw : faults.writeFails = true := by
        rcases hcase with h | h
        · rw [hu] at h; exact absurd h (by simp)
        · exact h
      constructor
      · simp [update_json_file, hfile, hparse, hb, hu, hw, hr]
      · simp [update_json_file, hfile, hparse, hb, hu, hw, hr]

/-- Witness for C3: a mutation that raises on a concrete existing file
leaves its bytes intact. -/
theorem c3_backup_round_trip_witness :
    (update_json_file (fun _ => some (Json.obj [])) (fun _ => "D")
        { backupFails := false, writeFails := false, junkContent := "",
          restoreFails := false }
        { file := some "orig", backup := none } (fun _ => none)).fs.file =
      some "orig" ∧
    (update_json_file (fun _ => some (Json.obj [])) (fun _ => "D")
        { backupFails := false, writeFails := false, junkContent := "",
          restoreFails := false }
        { file := some "orig", backup := none } (fun _ => none)).result ≠
      some true :=
  c3_backup_round_trip (fun _ => some (Json.obj [])) (fun _ => "D")
    { backupFails := false, writeFails := false, junkContent := "",
      restoreFails := false }
    { file := some "orig", backup := none } "orig" (Json.obj [])
    (fun _ => none) rfl rfl rfl rfl (Or.inl rfl)

theorem workspaceUpdate_preserves (n : String) (e : Json)
    (kvs : List (String × Json)) (doc' : Json) (k : String)
    (h : workspaceUpdate n e (Json.obj kvs) = some doc') (hk : k ≠ "servers") :
    topGet doc' k = getKey kvs k := by
  have hk' : "servers" ≠ k := fun hh => hk hh.symm
  cases hg : getKey kvs "servers" with
  | none =>
      simp only [workspaceUpdate, hg, getKey_setKey_same] at h
      cases h
      simp [topGet, getKey_setKey_ne _ _ _ _ hk', hg]
  | some v =>
      cases v <;> simp only [workspaceUpdate, hg] at h <;> try cases h
      simp [topGet, getKey_setKey_ne _ _ _ _ hk']

theorem userUpdate_preserves (n : String) (e : Json)
    (kvs : List (String × Json)) (doc' : Json) (k : String)
    (h : userUpdate n e (Json.obj kvs) = some doc') (hk : k ≠ "mcp") :
    topGet doc' k = getKey kvs k := by
  have hk' : "mcp" ≠ k := fun hh => hk hh.symm
  cases hg : getKey kvs "mcp" with
  | none =>
      simp only [userUpdate, hg, getKey_setKey_same, getKey] at h
      cases h
      simp [topGet, getKey_setKey_ne _ _ _ _ hk', hg]
  | some v =>
      cases v <;> simp only [userUpdate, hg] at h <;> try cases h
      case obj mkvs =>
        cases hs : getKey mkvs "servers" with
        | none =>
            simp only [hs, getKey_setKey_same] at h
            cases h
            simp [topGet, getKey_setKey_ne _ _ _ _ hk']
        | some w =>
            cases w <;> simp only [hs] at h <;> try cases h
            simp [topGet, getKey_setKey_ne _ _ _ _ hk']

theorem claudeUpdate_preserves (cc : Bool) (n : String) (e : Json)
    (kvs : List (String × Json)) (doc' : Json) (k : String)
    (h : claudeUpdate cc n e (Json.obj kvs) = some doc') (hk : k ≠ "mcpServers") :
    topGet doc' k = getKey kvs k := by
  have hk' : "mcpServers" ≠ k := fun hh => hk hh.symm
  cases e <;> simp only [claudeUpdate] at h <;> try cases h
  case obj ekvs =>
    cases hg : getKey kvs "mcpServers" with
    | none =>
        simp only [hg, getKey_setKey_same] at h
        cases h
        simp [topGet, getKey_setKey_ne _ _ _ _ hk', hg]
    | some v =>
        cases v <;> simp only [hg] at h <;> try cases h
        simp [topGet, getKey_setKey_ne _ _ _ _ hk']

/-- C1: for an existing target file parsing as a JSON object, after
`update_json_file` applies an adapter's mutation (successfully, producing
`doc'`) and writes the result, every top-level key other than the adapter's
own container key is still present in the written document with its
previous value. -/
theorem c1_unrelated_top_level_keys_preserved (parse : String → Option Json)
    (dumps : Json → String) (faults : Faults) (st : FSState) (a : AdapterKind)
    (n : String) (e doc' : Json) (kvs : List (String × Json)) (s k : String)
    (hfile : st.file = some s) (hparse : parse s = some (Json.obj kvs))
    (hup : adapterUpdate a n e (Json.obj kvs) = some doc')
    (hw : faults.writeFails = false) (hk : k ≠ containerKey a) :
    (update_json_file parse dumps faults st (adapterUpdate a n e)).result =
      some true ∧
    (update_json_file parse dumps faults st (adapterUpdate a n e)).fs.file =
      some (dumps doc') ∧
    topGet doc' k = getKey kvs k := by
  refine ⟨?_, ?_, ?_⟩
  · simp [update_json_file, hfile, hparse, hup, hw]
  · simp [update_json_file, hfile, hparse, hup, hw]
  · cases a with
    | workspaceNested => exact workspaceUpdate_preserves n e kvs doc' k hup hk
    | userNested => exact userUpdate_preserves n e kvs doc' k hup hk
    | flatWithTypeTag => exact claudeUpdate_preserves true n e kvs doc' k hup hk
    | flatPlain => exact claudeUpdate_preserves false n e kvs doc' k hup hk

/-- Witness for C1 on a concrete document with an unrelated key. -/
theorem c1_unrelated_top_level_keys_preserved_witness :
    (update_json_file (fun _ => some (Json.obj [("other", Json.str "v")]))
        (fun _ => "D")
        { backupFails := false, writeFails := false, junkContent := "",
          restoreFails := false }
        { file := some "S", backup := none }
        (adapterUpdate AdapterKind.workspaceNested "gitlab" Json.null)).result =
      some true ∧
    (update_json_file (fun _ => some (Json.obj [("other", Json.str "v")]))
        (fun _ => "D")
        { backupFails := false, writeFails := false, junkContent := "",
          restoreFails := false }
        { file := some "S", backup := none }
        (adapterUpdate AdapterKind.workspaceNested "gitlab" Json.null)).fs.file =
      some "D" ∧
    topGet (Json.obj [("other", Json.str "v"),
        ("servers", Json.obj [("gitlab", Json.null)])]) "other" =
      getKey [("other", Json.str "v")] "other" :=
  c1_unrelated_top_level_keys_preserved
    (fun _ => some (Json.obj [("other", Json.str "v")])) (fun _ => "D")
    { backupFails := false, writeFails := false, junkContent := "",
      restoreFails := false }
    { file := some "S", backup := none } AdapterKind.workspaceNested "gitlab"
    Json.null
    (Json.obj [("other", Json.str "v"),
      ("servers", Json.obj [("gitlab", Json.null)])])
    [("other", Json.str "v")] "S" "other" rfl rfl rfl rfl (by decide)

theorem workspaceUpdate_eq (n : String) (e : Json) (kvs c : List (String × Json))
    (hg : getKey kvs "servers" = some (Json.obj c)) :
    workspaceUpdate n e (Json.obj kvs) =
      some (Json.obj (setKey kvs "servers" (Json.obj (setKey c n e)))) := by
  simp [workspaceUpdate, hg]

theorem userUpdate_eq (n : String) (e : Json) (kvs m c : List (String × Json))
    (hm : getKey kvs "mcp" = some (Json.obj m))
    (hs : getKey m "servers" = some (Json.obj c)) :
    userUpdate n e (Json.obj kvs) =
      some (Json.obj (setKey kvs "mcp"
        (Json.obj (setKey m "servers" (Json.obj (setKey c n e)))))) := by
  simp [userUpdate, hm, hs]

theorem claudeUpdate_eq (cc : Bool) (n : String)
    (ekvs kvs c : List (String × Json))
    (hg : getKey kvs "mcpServers" = some (Json.obj c)) :
    claudeUpdate cc n (Json.obj ekvs) (Json.obj kvs) =
      some (Json.obj (setKey kvs "mcpServers" (Json.obj (setKey c n
        (if cc then Json.obj (setKey ekvs "type" (Json.str "stdio"))
         else Json.obj ekvs))))) := by
  cases cc <;> simp [claudeUpdate, hg]

theorem workspaceUpdate_upsert (n : String) (e : Json)
    (kvs c : List (String × Json))
    (hg : getKey kvs "servers" = some (Json.obj c)) :
    (workspaceUpdate n e (Json.obj kvs)).bind
        (getContainer AdapterKind.workspaceNested) = some (setKey c n e) ∧
    (workspaceUpdate n e (Json.obj kvs)).bind (workspaceUpdate n e) =
      workspaceUpdate n e (Json.obj kvs) := by
  rw [workspaceUpdate_eq n e kvs c hg]
  constructor
  · simp [Option.bind, getContainer, getKey_setKey_same]
  · simp only [Option.bind]
    rw [workspaceUpdate_eq n e _ (setKey c n e)
      (getKey_setKey_same kvs "servers" (Json.obj (setKey c n e)))]
    rw [setKey_setKey_same, setKey_setKey_same]

theorem userUpdate_upsert (n : String) (e : Json)
    (kvs m c : List (String × Json))
    (hm : getKey kvs "mcp" = some (Json.obj m))
    (hs : getKey m "servers" = some (Json.obj c)) :
    (userUpdate n e (Json.obj kvs)).bind
        (getContainer AdapterKind.userNested) = some (setKey c n e) ∧
    (userUpdate n e (Json.obj kvs)).bind (userUpdate n e) =
      userUpdate n e (Json.obj kvs) := by
  rw [userUpdate_eq n e kvs m c hm hs]
  constructor
  · simp [Option.bind, getContainer, getKey_setKey_same]
  · simp only [Option.bind]
    rw [userUpdate_eq n e _ (setKey m "servers" (Json.obj (setKey c n e)))
      (setKey c n e)
      (getKey_setKey_same kvs "mcp"
        (Json.obj (setKey m "servers" (Json.obj (setKey c n e)))))
      (getKey_setKey_same m "servers" (Json.obj (setKey c n e)))]
    rw [setKey_setKey_same, setKey_setKey_same, setKey_setKey_same]

theorem claudeUpdate_upsert (cc : Bool) (n : String)
    (ekvs kvs c : List (String × Json))
    (hg : getKey kvs "mcpServers" = some (Json.obj c)) :
    (claudeUpdate cc n (Json.obj ekvs) (Json.obj kvs)).bind
        (getContainer (if cc then AdapterKind.flatWithTypeTag
                       else AdapterKind.flatPlain)) =
      some (setKey c n
        (if cc then Json.obj (setKey ekvs "type" (Json.str "stdio"))
         else Json.obj ekvs)) ∧
    (claudeUpdate cc n (Json.obj ekvs) (Json.obj kvs)).bind
        (claudeUpdate cc n (Json.obj ekvs)) =
      claudeUpdate cc n (Json.obj ekvs) (Json.obj kvs) := by
  rw [claudeUpdate_eq cc n ekvs kvs c hg]
  constructor
  · cases cc <;> simp [Option.bind, getContainer, getKey_setKey_same]
  · simp only [Option.bind]
    rw [claudeUpdate_eq cc n ekvs _
      (setKey c n (if cc then Json.obj (setKey ekvs "type" (Json.str "stdio"))
                   else Json.obj ekvs))
      (getKey_setKey_same kvs "mcpServers" _)]
    rw [setKey_setKey_same, setKey_setKey_same]

theorem getContainer_workspace_elim (doc : Json) (c : List (String × Json))
    (h1 : getContainer AdapterKind.workspaceNested doc = some c) :
    ∃ kvs, doc = Json.obj kvs ∧ getKey kvs "servers" = some (Json.obj c) := by
  cases doc <;> simp only [getContainer] at h1 <;> try cases h1
  case obj kvs =>
    cases hg : getKey kvs "servers" with
    | none => simp [hg] at h1
    | some v =>
        cases v <;> simp [hg] at h1
        case obj c0 => exact ⟨kvs, rfl, by rw [hg, h1]⟩

theorem getContainer_user_elim (doc : Json) (c : List (String × Json))
    (h1 : getContainer AdapterKind.userNested doc = some c) :
    ∃ kvs m, doc = Json.obj kvs ∧ getKey kvs "mcp" = some (Json.obj m) ∧
      getKey m "servers" = some (Json.obj c) := by
  cases doc <;> simp only [getContainer] at h1 <;> try cases h1
  case obj kvs =>
    cases hm : getKey kvs "mcp" with
    | none => simp [hm] at h1
    | some v =>
        cases v <;> simp [hm] at h1
        case obj m =>
          cases hs : getKey m "servers" with
          | none => simp [hs] at h1
          | some w =>
              cases w <;> simp [hs] at h1
              case obj c0 => exact ⟨kvs, m, rfl, hm, by rw [hs, h1]⟩

theorem getContainer_flat_elim (a : AdapterKind) (doc : Json)
    (c : List (String × Json))
    (ha : a = AdapterKind.flatWithTypeTag ∨ a = AdapterKind.flatPlain)
    (h1 : getContainer a doc = some c) :
    ∃ kvs, doc = Json.obj kvs ∧ getKey kvs "mcpServers" = some (Json.obj c) := by
  rcases ha with ha | ha <;> subst ha <;>
    cases doc <;> simp only [getContainer] at h1 <;> try cases h1
  case inl.obj kvs =>
    cases hg : getKey kvs "mcpServers" with
    | none => simp [hg] at h1
    | some v =>
        cases v <;> simp [hg] at h1
        case obj c0 => exact ⟨kvs, rfl, by rw [hg, h1]⟩
  case inr.obj kvs =>
    cases hg : getKey kvs "mcpServers" with
    | none => simp [hg] at h1
    | some v =>
        cases v <;> simp [hg] at h1
        case obj c0 => exact ⟨kvs, rfl, by rw [hg, h1]⟩

/-- C5: on a document whose innermost container already maps `n` to some
old entry, an adapter applied with `(n, e)` replaces the value at `n` with
the entry it places (`e` itself, with `type = "stdio"` added for the Claude
Code shape), keeps every sibling name's previous value, and is idempotent:
applying the same `(n, e)` a second time yields the document produced by
applying it once. -/
theorem c5_upsert_overwrite_idempotent (a : AdapterKind) (n : String)
    (e doc pe old : Json) (c : List (String × Json)) (k : String)
    (h1 : getContainer a doc = some c) (_h2 : getKey c n = some old)
    (h3 : placedEntry a e = some pe) (hk : k ≠ n) :
    (adapterUpdate a n e doc).bind (getContainer a) = some (setKey c n pe) ∧
    getKey (setKey c n pe) n = some pe ∧
    getKey (setKey c n pe) k = getKey c k ∧
    (adapterUpdate a n e doc).bind (adapterUpdate a n e) =
      adapterUpdate a n e doc := by
  have hnk : n ≠ k := fun hh => hk hh.symm
  refine ⟨?_, ?_, getKey_setKey_ne c k n pe hnk, ?_⟩
  · cases a with
    | workspaceNested =>
        obtain ⟨kvs, rfl, hg⟩ := getContainer_workspace_elim doc c h1
        cases h3
        exact (workspaceUpdate_upsert n e kvs c hg).1
    | userNested =>
        obtain ⟨kvs, m, rfl, hm, hs⟩ := getContainer_user_elim doc c h1
        cases h3
        exact (userUpdate_upsert n e kvs m c hm hs).1
    | flatWithTypeTag =>
        obtain ⟨kvs, rfl, hg⟩ := getContainer_flat_elim _ doc c (Or.inl rfl) h1
        cases e <;> simp only [placedEntry] at h3 <;> try cases h3
        rename_i ekvs
        have := (claudeUpdate_upsert true n ekvs kvs c hg).1
        simpa using this
    | flatPlain =>
        obtain ⟨kvs, rfl, hg⟩ := getContainer_flat_elim _ doc c (Or.inr rfl) h1
        cases e <;> simp only [placedEntry] at h3 <;> try cases h3
        rename_i ekvs
        have := (claudeUpdate_upsert false n ekvs kvs c hg).1
        simpa using this
  · exact getKey_setKey_same c n pe
  · cases a with
    | workspaceNested =>
        obtain ⟨kvs, rfl, hg⟩ := getContainer_workspace_elim doc c h1
        exact (workspaceUpdate_upsert n e kvs c hg).2
    | userNested =>
        obtain ⟨kvs, m, rfl, hm, hs⟩ := getContainer_user_elim doc c h1
        exact (userUpdate_upsert n e kvs m c hm hs).2
    | flatWithTypeTag =>
        obtain ⟨kvs, rfl, hg⟩ := getContainer_flat_elim _ doc c (Or.inl rfl) h1
        cases e <;> simp only [placedEntry] at h3 <;> try cases h3
        rename_i ekvs
        exact (claudeUpdate_upsert true n ekvs kvs c hg).2
    | flatPlain =>
        obtain ⟨kvs, rfl, hg⟩ := getContainer_flat_elim _ doc c (Or.inr rfl) h1
        cases e <;> simp only [placedEntry] at h3 <;> try cases h3
        rename_i ekvs
        exact (claudeUpdate_upsert false n ekvs kvs c hg).2

/-- Witness for C5 on a concrete document with an existing entry and a
sibling. -/
theorem c5_upsert_overwrite_idempotent_witness :
    (adapterUpdate AdapterKind.workspaceNested "gitlab" Json.null
        (Json.obj [("servers", Json.obj [("gitlab", Json.str "old"),
          ("sib", Json.str "s")])])).bind
        (getContainer AdapterKind.workspaceNested) =
      some (setKey [("gitlab", Json.str "old"), ("sib", Json.str "s")]
        "gitlab" Json.null) ∧
    getKey (setKey [("gitlab", Json.str "old"), ("sib", Json.str "s")]
        "gitlab" Json.null) "gitlab" = some Json.null ∧
    getKey (setKey [("gitlab", Json.str "old"), ("sib", Json.str "s")]
        "gitlab" Json.null) "sib" =
      getKey [("gitlab", Json.str "old"), ("sib", Json.str "s")] "sib" ∧
    (adapterUpdate AdapterKind.workspaceNested "gitlab" Json.null
        (Json.obj [("servers", Json.obj [("gitlab", Json.str "old"),
          ("sib", Json.str "s")])])).bind
        (adapterUpdate AdapterKind.workspaceNested "gitlab" Json.null) =
      adapterUpdate AdapterKind.workspaceNested "gitlab" Json.null
        (Json.obj [("servers", Json.obj [("gitlab", Json.str "old"),
          ("sib", Json.str "s")])]) :=
  c5_upsert_overwrite_idempotent AdapterKind.workspaceNested "gitlab"
    Json.null
    (Json.obj [("servers", Json.obj [("gitlab", Json.str "old"),
      ("sib", Json.str "s")])])
    Json.null (Json.str "old")
    [("gitlab", Json.str "old"), ("sib", Json.str "s")] "sib"
    rfl rfl rfl (by decide)

theorem adapterUpdate_nonobj (a : AdapterKind) (n : String) (e j : Json)
    (hj : Json.isObj j = false) : adapterUpdate a n e j = none := by
  cases a <;> cases j <;>
    first
      | rfl
      | simp [Json.isObj] at hj

/-- C10: when the target file holds valid JSON whose top level is not an
object, `update_json_file` emits no parse warning, the adapter mutation
raises and the exception propagates (result `none`), the file's bytes are
unchanged, the `.bak` sibling has already been written — and
`update_environment` (Claude Desktop / Claude Code / Cursor branch)
reports the pair as failed. -/
theorem c10_non_object_document_failure (parse : String → Option Json)
    (dumps : Json → String) (faults : Faults) (st : FSState) (s : String)
    (j : Json) (a : AdapterKind) (n : String) (e : Json) (cc : Bool)
    (hfile : st.file = some s) (hparse : parse s = some j)
    (hj : Json.isObj j = false) (hb : faults.backupFails = false) :
    (update_json_file parse dumps faults st (adapterUpdate a n e)).parseWarning =
      false ∧
    (update_json_file parse dumps faults st (adapterUpdate a n e)).result =
      none ∧
    (update_json_file parse dumps faults st (adapterUpdate a n e)).fs =
      { file := some s, backup := some s } ∧
    (update_environment_claude parse dumps faults st n e cc).1 = false := by
  have hnone := adapterUpdate_nonobj a n e j hj
  have hnoneCC := adapterUpdate_nonobj
    (if cc then AdapterKind.flatWithTypeTag else AdapterKind.flatPlain) n e j hj
  refine ⟨?_, ?_, ?_, ?_⟩
  · simp [update_json_file, hfile, hparse, hb, hnone]
  · simp [update_json_file, hfile, hparse, hb, hnone]
  · simp [update_json_file, hfile, hparse, hb, hnone]
  · cases cc <;>
      simp only [adapterUpdate, if_true, if_false, Bool.false_eq_true,
        ite_true, ite_false] at hnoneCC <;>
      simp [update_environment_claude, update_claude_config, update_json_file,
        hfile, hparse, hb, hnoneCC]

/-- Witness for C10 at a concrete file containing a JSON array. -/
theorem c10_non_object_document_failure_witness :
    (update_json_file (fun _ => some (Json.arr [])) (fun _ => "D")
        { backupFails := false, writeFails := false, junkContent := "",
          restoreFails := false }
        { file := some "[]", backup := none }
        (adapterUpdate AdapterKind.workspaceNested "gitlab" Json.null)).parseWarning =
      false ∧
    (update_json_file (fun _ => some (Json.arr [])) (fun _ => "D")
        { backupFails := false, writeFails := false, junkContent := "",
          restoreFails := false }
        { file := some "[]", backup := none }
        (adapterUpdate AdapterKind.workspaceNested "gitlab" Json.null)).result =
      none ∧
    (update_json_file (fun _ => some (Json.arr [])) (fun _ => "D")
        { backupFails := false, writeFails := false, junkContent := "",
          restoreFails := false }
        { file := some "[]", backup := none }
        (adapterUpdate AdapterKind.workspaceNested "gitlab" Json.null)).fs =
      { file := some "[]", backup := some "[]" } ∧
    (update_environment_claude (fun _ => some (Json.arr [])) (fun _ => "D")
        { backupFails := false, writeFails := false, junkContent := "",
          restoreFails := false }
        { file := some "[]", backup := none } "gitlab" Json.null true).1 =
      false :=
  c10_non_object_document_failure (fun _ => some (Json.arr [])) (fun _ => "D")
    { backupFails := false, writeFails := false, junkContent := "",
      restoreFails := false }
    { file := some "[]", backup := none } "[]" (Json.arr [])
    AdapterKind.workspaceNested "gitlab" Json.null true rfl rfl rfl rfl

/-- C9: for the VS Code target, when updating the workspace file succeeds,
`update_vscode` returns success and the user-settings file is not touched;
when the workspace attempt returns failure or its mutation raises,
`update_vscode` makes exactly one attempt on the user-settings file and
returns that attempt's result. -/
theorem c9_vscode_fallback (parse : String → Option Json)
    (dumps : Json → String) (wsFaults userFaults : Faults) (st : VSCodeState)
    (server_name : String) (server_config : Json) :
    ((update_vscode_workspace parse dumps wsFaults st.ws server_name
        server_config).result = some true →
      update_vscode parse dumps wsFaults userFaults st server_name
          server_config =
        (some true,
         { ws := (update_vscode_workspace parse dumps wsFaults st.ws
             server_name server_config).fs, user := st.user })) ∧
    ((update_vscode_workspace parse dumps wsFaults st.ws server_name
        server_config).result ≠ some true →
      update_vscode parse dumps wsFaults userFaults st server_name
          server_config =
        ((update_vscode_user parse dumps userFaults st.user server_name
            server_config).result,
         { ws := (update_vscode_workspace parse dumps wsFaults st.ws
             server_name server_config).fs,
           user := (update_vscode_user parse dumps userFaults st.user
             server_name server_config).fs })) := by
  constructor
  · intro h
    simp [update_vscode, h]
  · intro h
    cases hr : (update_vscode_workspace parse dumps wsFaults st.ws server_name
        server_config).result with
    | none => simp [update_vscode, hr]
    | some b =>
        cases b with
        | false => simp [update_vscode, hr]
        | true => exact absurd hr h

/-- Witness for C9: a failed workspace write falls back to the user file. -/
theorem c9_vscode_fallback_witness :
    update_vscode (fun _ => none) (fun _ => "D")
        { backupFails := false, writeFails := true, junkContent := "J",
          restoreFails := false }
        { backupFails := false, writeFails := false, junkContent := "",
          restoreFails := false }
        { ws := { file := none, backup := none },
          user := { file := none, backup := none } } "gitlab" Json.null =
      (some true,
       { ws := { file := some "J", backup := none },
         user := { file := some "D", backup := none } }) :=
  (c9_vscode_fallback (fun _ => none) (fun _ => "D")
    { backupFails := false, writeFails := true, junkContent := "J",
      restoreFails := false }
    { backupFails := false, writeFails := false, junkContent := "",
      restoreFails := false }
    { ws := { file := none, backup := none },
      user := { file := none, backup := none } } "gitlab" Json.null).2
    (by decide)

/-- Counterexample to C6: with the default host `https://gitlab.com` the
built entry's env does contain `GITLAB_HOST` — `create_server_config` only
tests that the host string is truthy (non-empty), not that it differs from
the default. -/
theorem c6_default_host_counterexample :
    getKey (create_server_config
      { mode := Mode.loc, command := "/p/bin/gitlab-mcp-server",
        args := ["stdio"], env := [], docker_image := none }
      { name := "gitlab", mode := Mode.loc,
        gitlab_host := "https://gitlab.com", token := "t",
        readonly := false }).env "GITLAB_HOST" =
      some "https://gitlab.com" := rfl

/-- C6 as amended: the built entry's env always contains `GITLAB_TOKEN`
mapped to the record's token, and contains `GITLAB_HOST` mapped to the
record's host whenever the host string is non-empty — including the
default `https://gitlab.com`; only an empty host field leaves
`GITLAB_HOST` unset by this function. -/
theorem c6_token_always_host_when_nonempty (bc : BinaryConfig)
    (d : ServerData) :
    getKey (create_server_config bc d).env "GITLAB_TOKEN" = some d.token ∧
    (d.gitlab_host ≠ "" →
      getKey (create_server_config bc d).env "GITLAB_HOST" =
        some d.gitlab_host) ∧
    (d.gitlab_host = "" →
      getKey (create_server_config bc d).env "GITLAB_HOST" =
        getKey bc.env "GITLAB_HOST") := by
  have hROT : ("GITLAB_READ_ONLY" : String) ≠ "GITLAB_TOKEN" := by decide
  have hHT : ("GITLAB_HOST" : String) ≠ "GITLAB_TOKEN" := by decide
  have hROH : ("GITLAB_READ_ONLY" : String) ≠ "GITLAB_HOST" := by decide
  have hTH : ("GITLAB_TOKEN" : String) ≠ "GITLAB_HOST" := by decide
  refine ⟨?_, ?_, ?_⟩
  · by_cases hh : d.gitlab_host = "" <;> by_cases hro : d.readonly <;>
      simp [create_server_config, hh, hro, getKey_setKey_ne _ _ _ _ hROT,
        getKey_setKey_ne _ _ _ _ hHT, getKey_setKey_same]
  · intro hh
    by_cases hro : d.readonly <;>
      simp [create_server_config, hh, hro, getKey_setKey_ne _ _ _ _ hROH,
        getKey_setKey_same]
  · intro hh
    by_cases hro : d.readonly <;>
      simp [create_server_config, hh, hro, getKey_setKey_ne _ _ _ _ hROH,
        getKey_setKey_ne _ _ _ _ hTH, getKey_setKey_same]

/-- Witness for the amended C6 at a concrete record. -/
theorem c6_token_always_host_when_nonempty_witness :
    getKey (create_server_config
      { mode := Mode.docker, command := "docker", args := [], env := [],
        docker_image := some "gitlab-mcp-server:latest" }
      { name := "work", mode := Mode.docker,
        gitlab_host := "https://gitlab.example.org", token := "tok",
        readonly := true }).env "GITLAB_TOKEN" = some "tok" ∧
    getKey (create_server_config
      { mode := Mode.docker, command := "docker", args := [], env := [],
        docker_image := some "gitlab-mcp-server:latest" }
      { name := "work", mode := Mode.docker,
        gitlab_host := "https://gitlab.example.org", token := "tok",
        readonly := true }).env "GITLAB_HOST" =
      some "https://gitlab.example.org" :=
  ⟨(c6_token_always_host_when_nonempty _ _).1,
   (c6_token_always_host_when_nonempty
     { mode := Mode.docker, command := "docker", args := [], env := [],
       docker_image := some "gitlab-mcp-server:latest" }
     { name := "work", mode := Mode.docker,
       gitlab_host := "https://gitlab.example.org", token := "tok",
       readonly := true }).2.1 (by decide)⟩

/-- C7: for a record with the read-only flag set, Local mode yields an
entry whose env maps `GITLAB_READ_ONLY` to `"true"`, and Container mode
yields the docker argument list with the pass-through pair
`-e GITLAB_READ_ONLY` inserted immediately before the final image-tag
argument (the image tag still last), both in the binary config and in the
entry built from it. -/
theorem c7_readonly_propagation (root : String) (d : ServerData)
    (be : Bool) (hro : d.readonly = true) :
    ((get_binary_config Mode.loc root true).map (fun bc =>
        getKey (create_server_config (apply_readonly_flag bc d.readonly) d).env
          "GITLAB_READ_ONLY")) = some (some "true") ∧
    ((get_binary_config Mode.docker root be).map (fun bc =>
        (apply_readonly_flag bc d.readonly).args)) =
      some ["run", "-i", "--rm", "-e", "GITLAB_TOKEN", "-e", "GITLAB_HOST",
        "-e", "GITLAB_READ_ONLY", "gitlab-mcp-server:latest"] ∧
    ((get_binary_config Mode.docker root be).map (fun bc =>
        (create_server_config (apply_readonly_flag bc d.readonly) d).args)) =
      some ["run", "-i", "--rm", "-e", "GITLAB_TOKEN", "-e", "GITLAB_HOST",
        "-e", "GITLAB_READ_ONLY", "gitlab-mcp-server:latest"] := by
  refine ⟨?_, ?_, ?_⟩
  · simp [get_binary_config, apply_readonly_flag, create_server_config, hro,
      getKey_setKey_same]
  · simp [get_binary_config, apply_readonly_flag, hro, insertBeforeLast]
  · simp [get_binary_config, apply_readonly_flag, create_server_config, hro,
      insertBeforeLast]

/-- Witness for C7 at a concrete read-only record. -/
theorem c7_readonly_propagation_witness :
    ((get_binary_config Mode.loc "/p" true).map (fun bc =>
        getKey (create_server_config (apply_readonly_flag bc true)
          { name := "gitlab", mode := Mode.loc,
            gitlab_host := "https://gitlab.com", token := "t",
            readonly := true }).env "GITLAB_READ_ONLY")) = some (some "true") ∧
    ((get_binary_config Mode.docker "/p" true).map (fun bc =>
        (apply_readonly_flag bc true).args)) =
      some ["run", "-i", "--rm", "-e", "GITLAB_TOKEN", "-e", "GITLAB_HOST",
        "-e", "GITLAB_READ_ONLY", "gitlab-mcp-server:latest"] ∧
    ((get_binary_config Mode.docker "/p" true).map (fun bc =>
        (create_server_config (apply_readonly_flag bc true)
          { name := "gitlab", mode := Mode.loc,
            gitlab_host := "https://gitlab.com", token := "t",
            readonly := true }).args)) =
      some ["run", "-i", "--rm", "-e", "GITLAB_TOKEN", "-e", "GITLAB_HOST",
        "-e", "GITLAB_READ_ONLY", "gitlab-mcp-server:latest"] :=
  c7_readonly_propagation "/p"
    { name := "gitlab", mode := Mode.loc, gitlab_host := "https://gitlab.com",
      token := "t", readonly := true } true rfl

/-- C8: with Local mode selected for every collected server and the
project's `bin/gitlab-mcp-server` missing, `get_binary_config` produces no
invocation record (it exits the run), and the per-server loop of `main`
performs no `update_environment` call before terminating: its whole event
trace is the single fatal exit. -/
theorem c8_local_binary_missing_fatal (root : String)
    (servers : List ServerData) (envs : List String) (hne : servers ≠ [])
    (hmode : ∀ s ∈ servers, s.mode = Mode.loc) :
    get_binary_config Mode.loc root false = none ∧
    run_servers false root servers envs = [StepEvent.exit1] := by
  constructor
  · rfl
  · cases servers with
    | nil => exact absurd rfl hne
    | cons s rest =>
        have hs := hmode s (List.mem_cons_self s rest)
        simp [run_servers, hs, get_binary_config]

/-- Witness for C8 at a concrete single-server run. -/
theorem c8_local_binary_missing_fatal_witness :
    get_binary_config Mode.loc "/p" false = none ∧
    run_servers false "/p"
      [{ name := "gitlab", mode := Mode.loc,
         gitlab_host := "https://gitlab.com", token := "t",
         readonly := false }] ["VS Code"] = [StepEvent.exit1] :=
  c8_local_binary_missing_fatal "/p"
    [{ name := "gitlab", mode := Mode.loc, gitlab_host := "https://gitlab.com",
       token := "t", readonly := false }] ["VS Code"] (by decide) (by decide)

/-- Witness for C2 at the concrete entry of the spec's scenario. -/
theorem c2_adapter_shape_exactness_witness :
    workspaceUpdate "gitlab"
        (Json.obj [("command", Json.str "/bin/x")]) (Json.obj []) =
      some (Json.obj [("servers",
        Json.obj [("gitlab", Json.obj [("command", Json.str "/bin/x")])])]) :=
  (c2_adapter_shape_exactness [("command", Json.str "/bin/x")]).1
